import Mathlib

/-!
# Verification of the Meteor-Madness asteroid viewer (`src/AsteroidExplorer.jsx`)

This file is a shallow embedding, in Lean 4, of the parts of
`src/AsteroidExplorer.jsx` that the specification makes claims about:

* the deterministic procedural shape generator `createBumpyGeometry`
  (lines 201-222) together with its RNG `mulberry32` (lines 187-195),
* the string-to-seed helper `hashCode` (lines 283-290),
* the embedded seed catalog `SAMPLE_ASTEROIDS` (lines 32-175),
* the catalog refresh merge and selection update in `fetchNeos`
  (lines 380-386),
* the detail-enrichment overlay in `fetchSBDBDetails` (lines 399-424),
* the search filter `filtered` (lines 437-446).

Modelling conventions:

* JavaScript numbers appearing in bit operations (`^`, `|`, `>>>`,
  `Math.imul`) are modelled by their 32-bit patterns, i.e. natural numbers
  below 2^32; `ToInt32`/`ToUint32` coercions become `% 2^32` on the
  mathematical truncation.  All of these steps are exact in JavaScript
  doubles (every intermediate is below 2^53), so the integer pipeline of
  `mulberry32` and `hashCode` is modelled bit-exactly.
* Other JavaScript floating point arithmetic (sphere trigonometry,
  displacement scaling, `Math.sin` inside the per-vertex hash) is modelled
  over the real numbers: the idealized exact-real reading of the same
  formulas, which is the reading the specification itself uses.
* `THREE.SphereGeometry(radius, w, h)` (an external library the generator
  calls) places its `(w+1)*(h+1)` vertices on a UV grid, row major
  (`iy = 0..h` outer, `ix = 0..w` inner), at
  `(-r cos(2π ix/w) sin(π iy/h), r cos(π iy/h), r sin(2π ix/w) sin(π iy/h))`,
  with the unit normal being the same expression without `r` (this is the
  library's construction for `radius > 0`); its index buffer joins grid
  neighbours, skipping one triangle of each quad in the two pole rows.
-/

/-! ## 32-bit JavaScript integer pipeline -/

/-- `Math.imul` on 32-bit patterns: multiplication modulo 2^32.  The signed
interpretation of the JavaScript result has the same bit pattern. -/
def jsImul (a b : ℕ) : ℕ := a * b % 4294967296

/-- The first (and only, in this program) output of the `mulberry32` PRNG
stream for a given seed, as the 32-bit numerator `k` of the returned value
`k / 4294967296` (source lines 187-195).  `t += 0x6d2b79f5` is followed only
by operations that coerce to 32 bits, so it is modelled modulo 2^32;
`r + Math.imul(...)` is an exact double addition whose `ToInt32` coercion is
again addition modulo 2^32 on patterns. -/
def mulberry32 (seed : ℕ) : ℕ :=
  let t := (seed % 4294967296 + 1831565813) % 4294967296
  let r := jsImul (t ^^^ (t >>> 15)) (1 ||| t)
  let r := r ^^^ ((r + jsImul (r ^^^ (r >>> 7)) (61 ||| r)) % 4294967296)
  (r ^^^ (r >>> 14)) % 4294967296

/-- The FNV-1a style string hash of source lines 283-290, over the list of
UTF-16 code units of the string (`str.charCodeAt(i)`).  `h ^= c` operates on
the 32-bit pattern and `Math.imul(h, 16777619)` multiplies modulo 2^32; the
final `>>> 0` returns the unsigned pattern. -/
def hashCode (units : List ℕ) : ℕ :=
  units.foldl (fun h c => jsImul (h ^^^ c) 16777619) 2166136261

/-! ## Tessellation parameters

`createBumpyGeometry` builds
`new THREE.SphereGeometry(radius, Math.max(32, segments), Math.max(16, Math.floor(segments / 2)))`
(source line 202). -/

/-- Longitude divisions actually used: `Math.max(32, segments)`. -/
def widthSeg (segments : ℤ) : ℕ := (max 32 segments).toNat

/-- Latitude divisions actually used: `Math.max(16, Math.floor(segments / 2))`. -/
def heightSeg (segments : ℤ) : ℕ := (max 16 (Int.fdiv segments 2)).toNat

theorem widthSeg_ge (s : ℤ) : 32 ≤ widthSeg s := by
  unfold widthSeg
  rcases le_total (32 : ℤ) s with h | h
  · rw [max_eq_right h]; omega
  · rw [max_eq_left h]; decide

theorem heightSeg_ge (s : ℤ) : 16 ≤ heightSeg s := by
  unfold heightSeg
  rcases le_total (16 : ℤ) (Int.fdiv s 2) with h | h
  · rw [max_eq_right h]; omega
  · rw [max_eq_left h]; decide

theorem mulberry32_lt (seed : ℕ) : mulberry32 seed < 4294967296 :=
  Nat.mod_lt _ (by norm_num)

theorem mulberry32_mod (a : ℕ) : mulberry32 (a % 4294967296) = mulberry32 a := by
  have h : a % 4294967296 % 4294967296 = a % 4294967296 :=
    Nat.mod_mod_of_dvd a dvd_rfl
  unfold mulberry32
  rw [h]

/-! ## The shape generator (`createBumpyGeometry`, source lines 201-222)

The per-vertex hash (source lines 212-213) is
`Math.abs(Math.sin((x*73856093) ^ (y*19349663) ^ (z*83492791))) * 100000`,
followed by `Math.floor`.  The `^` operator coerces each double operand with
`ToInt32` (truncate toward zero, take the low 32 bits) and xors the 32-bit
patterns; `Math.sin` is then applied to the signed value of the resulting
pattern.  We model the doubles as exact reals and `Math.sin` as `Real.sin`. -/

/-- JavaScript truncation toward zero of a real number. -/
noncomputable def jsTrunc (x : ℝ) : ℤ := if 0 ≤ x then ⌊x⌋ else -⌊-x⌋

/-- The 32-bit pattern produced by `ToInt32`/`ToUint32` on a real. -/
noncomputable def jsToUint32 (x : ℝ) : ℕ := (jsTrunc x % 4294967296).toNat

/-- The signed value of a 32-bit pattern, as read by `Math.sin`'s argument. -/
def jsInt32val (pat : ℕ) : ℤ :=
  if pat < 2147483648 then (pat : ℤ) else (pat : ℤ) - 4294967296

/-- The per-vertex hash of source lines 212-213, already `Math.floor`ed as in
line 214 (the hash is nonnegative, so `Math.floor` is `Int.floor` and the
result is a natural number in `[0, 100000]`). -/
noncomputable def jsHash (x y z : ℝ) : ℕ :=
  let c := jsToUint32 (x * 73856093) ^^^ jsToUint32 (y * 19349663) ^^^
    jsToUint32 (z * 83492791)
  (⌊|Real.sin ((jsInt32val c : ℝ))| * 100000⌋).toNat

/-- `localRng() * 2 - 1` (source line 215): the single draw of the
per-vertex `mulberry32` stream, mapped to `[-1, 1)`. -/
noncomputable def noiseOf (s : ℕ) : ℝ := (mulberry32 s : ℝ) / 4294967296 * 2 - 1

/-- Position of grid vertex `(ix, iy)` of `THREE.SphereGeometry(r, w, h)`
(row `iy` from the north pole, column `ix`). -/
noncomputable def vertexPos (r : ℝ) (w h ix iy : ℕ) : ℝ × ℝ × ℝ :=
  (-(r) * Real.cos (2 * Real.pi * ix / w) * Real.sin (Real.pi * iy / h),
   r * Real.cos (Real.pi * iy / h),
   r * Real.sin (2 * Real.pi * ix / w) * Real.sin (Real.pi * iy / h))

/-- Pre-displacement outward unit normal of grid vertex `(ix, iy)`: the
sphere position normalized, i.e. the position at radius 1. -/
noncomputable def vertexNormal (w h ix iy : ℕ) : ℝ × ℝ × ℝ := vertexPos 1 w h ix iy

/-- The per-vertex weighting factor `0.6 + 0.4 * Math.abs(nx + ny + nz)` of
source line 216. -/
noncomputable def vertexWeight (w h ix iy : ℕ) : ℝ :=
  0.6 + 0.4 * |(vertexNormal w h ix iy).1 + (vertexNormal w h ix iy).2.1 +
    (vertexNormal w h ix iy).2.2|

/-- The vertex noise value of source lines 212-215: the hash of the original
position is added to the global seed and fed to `mulberry32`. -/
noncomputable def vertexNoise (r : ℝ) (seed w h ix iy : ℕ) : ℝ :=
  noiseOf (jsHash (vertexPos r w h ix iy).1 (vertexPos r w h ix iy).2.1
    (vertexPos r w h ix iy).2.2 + seed)

/-- Displaced position of a vertex (source lines 216-217): the original
position scaled by `1 + noise * intensity * weight`. -/
noncomputable def displacedPos (radius intensity : ℝ) (seed w h ix iy : ℕ) :
    ℝ × ℝ × ℝ :=
  let p := vertexPos radius w h ix iy
  let d := 1 + vertexNoise radius seed w h ix iy * intensity * vertexWeight w h ix iy
  (p.1 * d, p.2.1 * d, p.2.2 * d)

/-- Triangle index buffer of `THREE.SphereGeometry(r, w, h)` (the library's
construction with full sphere angles): grid vertex `(ix, iy)` has index
`iy * (w + 1) + ix`; each interior quad contributes two triangles and each
pole row quad contributes one.  It depends only on the tessellation. -/
def sphereIndices (w h : ℕ) : List (ℕ × ℕ × ℕ) :=
  (List.range h).flatMap fun iy =>
    (List.range w).flatMap fun ix =>
      let a := iy * (w + 1) + ix + 1
      let b := iy * (w + 1) + ix
      let c := (iy + 1) * (w + 1) + ix
      let d := (iy + 1) * (w + 1) + ix + 1
      (if iy ≠ 0 then [(a, b, d)] else []) ++
        (if iy ≠ h - 1 then [(b, c, d)] else [])

/-- The data of the generated geometry the claims speak about: the final
vertex positions and the (seed-independent) triangulation. -/
structure BumpyGeometry where
  positions : List (ℝ × ℝ × ℝ)
  indexList : List (ℕ × ℕ × ℕ)

/-- The shape generator (source lines 201-222).  Builds the clamped UV
sphere, then displaces every vertex radially by its deterministic noise
factor.  (`geom.computeVertexNormals()` recomputes normals from these
positions and is not part of any claim, so normals of the output are not
modelled.) -/
noncomputable def createBumpyGeometry (radius : ℝ) (segments : ℤ)
    (intensity : ℝ) (seed : ℕ) : BumpyGeometry :=
  let w := widthSeg segments
  let h := heightSeg segments
  { positions :=
      (List.range (h + 1)).flatMap fun iy =>
        (List.range (w + 1)).map fun ix =>
          displacedPos radius intensity seed w h ix iy,
    indexList := sphereIndices w h }

/-- Distance of a point from the sphere center (the origin). -/
noncomputable def distFromCenter (p : ℝ × ℝ × ℝ) : ℝ :=
  Real.sqrt (p.1 ^ 2 + p.2.1 ^ 2 + p.2.2 ^ 2)

/-! ### Basic lemmas about the generator -/

theorem positions_length (radius intensity : ℝ) (segments : ℤ) (seed : ℕ) :
    (createBumpyGeometry radius segments intensity seed).positions.length =
      (heightSeg segments + 1) * (widthSeg segments + 1) := by
  simp only [createBumpyGeometry, List.length_flatMap, Function.comp_def,
    List.length_map, List.length_range, List.map_const', List.sum_replicate,
    smul_eq_mul]

theorem positions_head (radius intensity : ℝ) (segments : ℤ) (seed : ℕ) :
    (createBumpyGeometry radius segments intensity seed).positions.head? =
      some (displacedPos radius intensity seed (widthSeg segments)
        (heightSeg segments) 0 0) := by
  unfold createBumpyGeometry
  simp only [List.range_succ_eq_map, List.flatMap_cons, List.map_cons,
    List.cons_append, List.head?_cons]

theorem mem_of_head?_some {α : Type _} {x : α} {l : List α}
    (h : l.head? = some x) : x ∈ l := by
  cases l with
  | nil => simp at h
  | cons a t =>
    simp only [List.head?_cons, Option.some.injEq] at h
    subst h
    exact List.mem_cons_self _ _

theorem positions_mem (radius intensity : ℝ) (segments : ℤ) (seed : ℕ)
    {p : ℝ × ℝ × ℝ}
    (hp : p ∈ (createBumpyGeometry radius segments intensity seed).positions) :
    ∃ ix iy : ℕ, ix ≤ widthSeg segments ∧ iy ≤ heightSeg segments ∧
      p = displacedPos radius intensity seed (widthSeg segments)
        (heightSeg segments) ix iy := by
  simp only [createBumpyGeometry, List.mem_flatMap, List.mem_map,
    List.mem_range] at hp
  obtain ⟨iy, hiy, ix, hix, rfl⟩ := hp
  exact ⟨ix, iy, by omega, by omega, rfl⟩

theorem noiseOf_bounds (s : ℕ) : -1 ≤ noiseOf s ∧ noiseOf s < 1 := by
  unfold noiseOf
  have h1 : (0 : ℝ) ≤ (mulberry32 s : ℝ) := Nat.cast_nonneg _
  have h2 : (mulberry32 s : ℝ) < 4294967296 := by
    exact_mod_cast mulberry32_lt s
  constructor
  · have : (0 : ℝ) ≤ (mulberry32 s : ℝ) / 4294967296 := by positivity
    linarith
  · have : (mulberry32 s : ℝ) / 4294967296 < 1 := by
      rw [div_lt_one (by norm_num)]
      exact h2
    linarith

theorem vertexNoise_bounds (r : ℝ) (seed w h ix iy : ℕ) :
    -1 ≤ vertexNoise r seed w h ix iy ∧ vertexNoise r seed w h ix iy < 1 :=
  noiseOf_bounds _

theorem vertexNormal_unit (w h ix iy : ℕ) :
    (vertexNormal w h ix iy).1 ^ 2 + (vertexNormal w h ix iy).2.1 ^ 2 +
      (vertexNormal w h ix iy).2.2 ^ 2 = 1 := by
  unfold vertexNormal vertexPos
  dsimp only
  set φ := 2 * Real.pi * (ix : ℝ) / w
  set θ := Real.pi * (iy : ℝ) / h
  linear_combination (Real.sin θ) ^ 2 * Real.sin_sq_add_cos_sq φ +
    Real.sin_sq_add_cos_sq θ

theorem vertexWeight_bounds (w h ix iy : ℕ) :
    0.6 ≤ vertexWeight w h ix iy ∧
      vertexWeight w h ix iy ≤ 0.6 + 0.4 * Real.sqrt 3 := by
  have hunit := vertexNormal_unit w h ix iy
  unfold vertexWeight
  set n1 := (vertexNormal w h ix iy).1
  set n2 := (vertexNormal w h ix iy).2.1
  set n3 := (vertexNormal w h ix iy).2.2
  have hsq : (n1 + n2 + n3) ^ 2 ≤ 3 := by
    nlinarith [sq_nonneg (n1 - n2), sq_nonneg (n2 - n3), sq_nonneg (n1 - n3)]
  have habs : |n1 + n2 + n3| ≤ Real.sqrt 3 := by
    rw [← Real.sqrt_sq_eq_abs]
    exact Real.sqrt_le_sqrt hsq
  have hnn := abs_nonneg (n1 + n2 + n3)
  constructor <;> linarith

theorem vertexPos_eq_smul (r : ℝ) (w h ix iy : ℕ) :
    vertexPos r w h ix iy =
      (r * (vertexNormal w h ix iy).1, r * (vertexNormal w h ix iy).2.1,
       r * (vertexNormal w h ix iy).2.2) := by
  unfold vertexNormal vertexPos
  dsimp only
  rw [Prod.mk.injEq, Prod.mk.injEq]
  refine ⟨by ring, by ring, by ring⟩

theorem distFromCenter_displacedPos (radius intensity : ℝ) (seed w h ix iy : ℕ)
    (hr : 0 ≤ radius) :
    distFromCenter (displacedPos radius intensity seed w h ix iy) =
      radius * |1 + vertexNoise radius seed w h ix iy * intensity *
        vertexWeight w h ix iy| := by
  unfold displacedPos distFromCenter
  dsimp only
  rw [vertexPos_eq_smul radius w h ix iy]
  dsimp only
  set d := 1 + vertexNoise radius seed w h ix iy * intensity *
    vertexWeight w h ix iy
  have hunit := vertexNormal_unit w h ix iy
  set n1 := (vertexNormal w h ix iy).1
  set n2 := (vertexNormal w h ix iy).2.1
  set n3 := (vertexNormal w h ix iy).2.2
  have hring : (radius * n1 * d) ^ 2 + (radius * n2 * d) ^ 2 +
      (radius * n3 * d) ^ 2 = (radius * d) ^ 2 * (n1 ^ 2 + n2 ^ 2 + n3 ^ 2) := by
    ring
  rw [hring, hunit, mul_one, Real.sqrt_sq_eq_abs, abs_mul, abs_of_nonneg hr]

theorem distFromCenter_bounds (radius intensity : ℝ) (segments : ℤ) (seed : ℕ)
    (hr : 0 ≤ radius) (hi : 0 ≤ intensity) {p : ℝ × ℝ × ℝ}
    (hp : p ∈ (createBumpyGeometry radius segments intensity seed).positions) :
    radius * (1 - intensity * (0.6 + 0.4 * Real.sqrt 3)) ≤ distFromCenter p ∧
      distFromCenter p ≤ radius * (1 + intensity * (0.6 + 0.4 * Real.sqrt 3)) := by
  obtain ⟨ix, iy, hix, hiy, rfl⟩ := positions_mem _ _ _ _ hp
  rw [distFromCenter_displacedPos _ _ _ _ _ _ _ hr]
  obtain ⟨hn1, hn2⟩ := vertexNoise_bounds radius seed (widthSeg segments)
    (heightSeg segments) ix iy
  obtain ⟨hw1, hw2⟩ := vertexWeight_bounds (widthSeg segments)
    (heightSeg segments) ix iy
  set nz := vertexNoise radius seed (widthSeg segments) (heightSeg segments) ix iy
  set wt := vertexWeight (widthSeg segments) (heightSeg segments) ix iy
  set W := (0.6 : ℝ) + 0.4 * Real.sqrt 3
  have hwnn : (0 : ℝ) ≤ wt := by linarith
  have hWnn : (0 : ℝ) ≤ W := by linarith
  have hup : nz * wt ≤ W := by nlinarith [mul_nonneg (by linarith : (0:ℝ) ≤ 1 - nz) hwnn]
  have hlo : -W ≤ nz * wt := by nlinarith [mul_nonneg (by linarith : (0:ℝ) ≤ nz + 1) hwnn]
  have hd2 : 1 + nz * intensity * wt ≤ 1 + intensity * W := by
    have := mul_le_mul_of_nonneg_left hup hi
    nlinarith
  have hd1 : 1 - intensity * W ≤ 1 + nz * intensity * wt := by
    have := mul_le_mul_of_nonneg_left hlo hi
    nlinarith
  set d := 1 + nz * intensity * wt
  have hiW : (0 : ℝ) ≤ intensity * W := mul_nonneg hi hWnn
  constructor
  · rcases le_or_lt (1 - intensity * W) 0 with hc | hc
    · have h1 : radius * (1 - intensity * W) ≤ 0 := mul_nonpos_of_nonneg_of_nonpos hr hc
      have h2 : (0 : ℝ) ≤ radius * |d| := mul_nonneg hr (abs_nonneg d)
      linarith
    · have h1 : 1 - intensity * W ≤ |d| := le_trans hd1 (le_abs_self d)
      exact mul_le_mul_of_nonneg_left h1 hr
  · have h1 : |d| ≤ 1 + intensity * W := by
      rw [abs_le]
      constructor <;> [linarith; exact hd2]
    exact mul_le_mul_of_nonneg_left h1 hr

/-! ### Evaluation at the north-pole vertex `(ix, iy) = (0, 0)`

At the pole the original position is `(0, r, 0)` and the normal is
`(0, 1, 0)`, so the weighting factor is exactly `1` and the displaced
position is `(0, r * (1 + noise * intensity), 0)`. -/

theorem vertexPos_pole (r : ℝ) (w h : ℕ) : vertexPos r w h 0 0 = (0, r, 0) := by
  unfold vertexPos
  norm_num [Real.sin_zero, Real.cos_zero]

theorem vertexWeight_pole (w h : ℕ) : vertexWeight w h 0 0 = 1 := by
  unfold vertexWeight vertexNormal
  rw [vertexPos_pole]
  norm_num

theorem displacedPos_pole (radius intensity : ℝ) (seed w h : ℕ) :
    displacedPos radius intensity seed w h 0 0 =
      (0, radius * (1 + noiseOf (jsHash 0 radius 0 + seed) * intensity), 0) := by
  unfold displacedPos vertexNoise
  rw [vertexPos_pole, vertexWeight_pole]
  norm_num

/-! ### Concrete evaluations used by counterexamples -/

theorem widthSeg_32 : widthSeg 32 = 32 := by decide

theorem heightSeg_32 : heightSeg 32 = 16 := by decide

theorem widthSeg_128 : widthSeg 128 = 128 := by decide

theorem heightSeg_128 : heightSeg 128 = 64 := by decide

/-- At grid vertex `(ix, iy) = (48, 32)` of the default 128x64 tessellation
the normal is `(√2/2, 0, √2/2)`, whose components sum to `√2`. -/
theorem vertexNormal_diag_sum :
    (vertexNormal 128 64 48 32).1 + (vertexNormal 128 64 48 32).2.1 +
      (vertexNormal 128 64 48 32).2.2 = Real.sqrt 2 := by
  unfold vertexNormal vertexPos
  dsimp only
  have hphi : 2 * Real.pi * ((48 : ℕ) : ℝ) / ((128 : ℕ) : ℝ) =
      Real.pi - Real.pi / 4 := by
    push_cast
    ring
  have htheta : Real.pi * ((32 : ℕ) : ℝ) / ((64 : ℕ) : ℝ) = Real.pi / 2 := by
    push_cast
    ring
  rw [hphi, htheta, Real.cos_pi_sub, Real.sin_pi_sub, Real.cos_pi_div_four,
    Real.sin_pi_div_four, Real.sin_pi_div_two, Real.cos_pi_div_two]
  ring

/-- The weighting factor at that diagonal vertex is `0.6 + 0.4 * √2 > 1`. -/
theorem vertexWeight_diag : 1 < vertexWeight 128 64 48 32 := by
  unfold vertexWeight
  rw [vertexNormal_diag_sum, abs_of_nonneg (Real.sqrt_nonneg 2)]
  nlinarith [Real.sq_sqrt (show (0:ℝ) ≤ 2 by norm_num), Real.sqrt_nonneg 2]

/-- For `radius = 10^-8` the pole position `(0, r, 0)` hashes to `0`:
all three products truncate to the 32-bit pattern `0`, and
`Math.abs(Math.sin(0)) * 100000 = 0`. -/
theorem jsHash_pole_tiny : jsHash 0 (1 / 100000000 : ℝ) 0 = 0 := by
  have h0 : jsToUint32 ((0 : ℝ) * 73856093) = 0 := by
    unfold jsToUint32 jsTrunc
    norm_num
  have h2 : jsToUint32 ((0 : ℝ) * 83492791) = 0 := by
    unfold jsToUint32 jsTrunc
    norm_num
  have h1 : jsToUint32 ((1 / 100000000 : ℝ) * 19349663) = 0 := by
    unfold jsToUint32 jsTrunc
    rw [if_pos (by norm_num)]
    have hfl : ⌊(1 / 100000000 : ℝ) * 19349663⌋ = 0 := by
      apply Int.floor_eq_zero_iff.2
      constructor <;> norm_num
    rw [hfl]
    rfl
  unfold jsHash
  rw [h0, h1, h2]
  norm_num [jsInt32val, Real.sin_zero]

/-! ## Claims C1-C5: the shape generator -/

/-- **C1.** For every fixed input tuple `(seed, baseRadius, resolution,
intensity)`, two invocations of `createBumpyGeometry` produce exactly
identical vertex position sets.  The source function reads nothing but its
four arguments (no ambient mutable state, no clock, no `Math.random`), which
the shallow embedding reflects: equal inputs give equal outputs. -/
theorem C1_determinism (r1 r2 intensity1 intensity2 : ℝ) (s1 s2 : ℤ)
    (seed1 seed2 : ℕ) (hr : r1 = r2) (hs : s1 = s2)
    (hi : intensity1 = intensity2) (hseed : seed1 = seed2) :
    createBumpyGeometry r1 s1 intensity1 seed1 =
      createBumpyGeometry r2 s2 intensity2 seed2 := by
  subst hr hs hi hseed
  rfl

/-- Witness for C1 at the generator's default inputs
`(radius, segments, intensity, seed) = (1, 128, 0.08, 42)`. -/
theorem C1_determinism_witness :
    createBumpyGeometry 1 128 (8 / 100) 42 =
      createBumpyGeometry 1 128 (8 / 100) 42 :=
  C1_determinism 1 1 (8 / 100) (8 / 100) 128 128 42 42 rfl rfl rfl rfl

/-- **C2, counterexample.**  The claim that the per-vertex weighting factor
`0.6 + 0.4 * |nx + ny + nz|` lies in `[0.6, 1.0]` (never exceeding full
intensity scaling) is false: at grid vertex `(ix, iy) = (48, 32)` of the
default `segments = 128` tessellation the factor is `0.6 + 0.4 * √2 ≈ 1.166`. -/
theorem C2_cex : ¬ (∀ (segments : ℤ) (ix iy : ℕ),
    ix ≤ widthSeg segments → iy ≤ heightSeg segments →
    vertexWeight (widthSeg segments) (heightSeg segments) ix iy ≤ 1) := by
  intro hcl
  have h := hcl 128 48 32 (by rw [widthSeg_128]; omega)
    (by rw [heightSeg_128]; omega)
  rw [widthSeg_128, heightSeg_128] at h
  exact absurd h (not_le.2 vertexWeight_diag)

/-- **C2, amended.**  The weighting factor lies in `[0.6, 0.6 + 0.4 * √3]`
(so it is never zero but can exceed 1), and with the intensity used as
passed (the generator performs no clamping), every output vertex's distance
from the center lies within
`baseRadius * (1 ± intensity * (0.6 + 0.4 * √3))` inclusive. -/
theorem C2_bounded_displacement :
    (∀ w h ix iy : ℕ, 0.6 ≤ vertexWeight w h ix iy ∧
      vertexWeight w h ix iy ≤ 0.6 + 0.4 * Real.sqrt 3) ∧
    (∀ (radius intensity : ℝ) (segments : ℤ) (seed : ℕ),
      0 ≤ radius → 0 ≤ intensity →
      ∀ p ∈ (createBumpyGeometry radius segments intensity seed).positions,
        radius * (1 - intensity * (0.6 + 0.4 * Real.sqrt 3)) ≤ distFromCenter p ∧
          distFromCenter p ≤
            radius * (1 + intensity * (0.6 + 0.4 * Real.sqrt 3))) :=
  ⟨vertexWeight_bounds, fun radius intensity segments seed hr hi _ hp =>
    distFromCenter_bounds radius intensity segments seed hr hi hp⟩

/-- Witness for the amended C2 at
`(radius, segments, intensity, seed) = (1, 32, 1/10, 0)`, north pole vertex. -/
theorem C2_bounded_displacement_witness :
    0.6 ≤ vertexWeight 32 16 0 0 ∧
    1 * (1 - (1 / 10) * (0.6 + 0.4 * Real.sqrt 3)) ≤
      distFromCenter (displacedPos 1 (1 / 10) 0 32 16 0 0) ∧
    distFromCenter (displacedPos 1 (1 / 10) 0 32 16 0 0) ≤
      1 * (1 + (1 / 10) * (0.6 + 0.4 * Real.sqrt 3)) := by
  have hmem : displacedPos 1 (1 / 10) 0 32 16 0 0 ∈
      (createBumpyGeometry 1 32 (1 / 10) 0).positions := by
    apply mem_of_head?_some
    rw [positions_head, widthSeg_32, heightSeg_32]
  have h := C2_bounded_displacement.2 1 (1 / 10) 32 0 (by norm_num)
    (by norm_num) _ hmem
  exact ⟨(C2_bounded_displacement.1 32 16 0 0).1, h.1, h.2⟩

/-- **C3, counterexample.**  `createBumpyGeometry` does not clamp the
intensity input: with `(radius, segments, seed) = (10^-8, 32, 0)` the output
at `intensity = 1` (a value in `[0, 1]`) differs from the output at the
clamped intensity `max(0.02, min(0.12, 1)) = 0.12` — the north-pole vertex
has a nonzero noise value, so the unclamped intensity visibly reaches the
displacement factor. -/
theorem C3_cex : ¬ (∀ (radius intensity : ℝ) (segments : ℤ) (seed : ℕ),
    0 ≤ intensity → intensity ≤ 1 →
    createBumpyGeometry radius segments intensity seed =
      createBumpyGeometry radius segments (max 0.02 (min 0.12 intensity)) seed) := by
  intro hcl
  have h := hcl (1 / 100000000) 1 32 0 (by norm_num) (by norm_num)
  have hclamp : (max (0.02 : ℝ) (min 0.12 1)) = 0.12 := by
    rw [min_eq_left (by norm_num : (0.12 : ℝ) ≤ 1),
      max_eq_right (by norm_num : (0.02 : ℝ) ≤ 0.12)]
  rw [hclamp] at h
  have hh : (createBumpyGeometry (1 / 100000000) 32 1 0).positions.head? =
      (createBumpyGeometry (1 / 100000000) 32 0.12 0).positions.head? := by
    rw [h]
  rw [positions_head, positions_head, displacedPos_pole, displacedPos_pole,
    jsHash_pole_tiny] at hh
  simp only [Nat.add_zero, Option.some.injEq, Prod.mk.injEq] at hh
  obtain ⟨-, h2, -⟩ := hh
  have h3 := mul_left_cancel₀ (by norm_num : (1 / 100000000 : ℝ) ≠ 0) h2
  have hk : mulberry32 0 = 1144304738 := by decide
  have hne : noiseOf 0 ≠ 0 := by
    unfold noiseOf
    rw [hk]
    norm_num
  apply hne
  linarith

/-- The intensity expression the only caller passes (source line 230):
`Math.max(0.02, Math.min(0.12, 0.06))`, i.e. the constant `0.06` — the
clamp sits at the call site and operates on a constant, not on a
user-supplied intensity. -/
noncomputable def asteroidMeshIntensity : ℝ := max 0.02 (min 0.12 0.06)

/-- **C3, amended.**  The generator clamps only the tessellation counts
(to at least 32 and 16); the intensity is used exactly as passed.  The only
call site, `AsteroidMesh` (source line 230), passes the constant
`Math.max(0.02, Math.min(0.12, 0.06)) = 0.06`, and at that constant
intensity no displacement factor can invert the surface or bring a vertex's
radius near zero: every vertex stays at distance at least
`radius * (1 - 0.06 * (0.6 + 0.4 * √3)) > 0.9 * radius`.  The generator has
no error branch (it is a total function). -/
theorem C3_callsite_clamp :
    (∀ s : ℤ, 32 ≤ widthSeg s ∧ 16 ≤ heightSeg s) ∧
    asteroidMeshIntensity = 0.06 ∧
    (0.9 : ℝ) < 1 - 0.06 * (0.6 + 0.4 * Real.sqrt 3) ∧
    (∀ (radius : ℝ) (segments : ℤ) (seed : ℕ), 0 ≤ radius →
      ∀ p ∈ (createBumpyGeometry radius segments asteroidMeshIntensity
        seed).positions,
        radius * (1 - 0.06 * (0.6 + 0.4 * Real.sqrt 3)) ≤ distFromCenter p) := by
  have hval : asteroidMeshIntensity = 0.06 := by
    unfold asteroidMeshIntensity
    rw [min_eq_right (by norm_num : (0.06 : ℝ) ≤ 0.12),
      max_eq_right (by norm_num : (0.02 : ℝ) ≤ 0.06)]
  have hsqrt3 : Real.sqrt 3 < 2 := by
    nlinarith [Real.sq_sqrt (show (0 : ℝ) ≤ 3 by norm_num), Real.sqrt_nonneg 3]
  refine ⟨fun s => ⟨widthSeg_ge s, heightSeg_ge s⟩, hval, by nlinarith, ?_⟩
  intro radius segments seed hr p hp
  have h := distFromCenter_bounds radius asteroidMeshIntensity segments seed hr
    (by rw [hval]; norm_num) hp
  rw [hval] at h
  exact h.1

/-- Witness for the amended C3 at
`(radius, segments, seed) = (1, 32, 0)`, north pole vertex. -/
theorem C3_callsite_clamp_witness :
    32 ≤ widthSeg 128 ∧ asteroidMeshIntensity = 0.06 ∧
    1 * (1 - 0.06 * (0.6 + 0.4 * Real.sqrt 3)) ≤
      distFromCenter (displacedPos 1 asteroidMeshIntensity 0 32 16 0 0) := by
  have hmem : displacedPos 1 asteroidMeshIntensity 0 32 16 0 0 ∈
      (createBumpyGeometry 1 32 asteroidMeshIntensity 0).positions := by
    apply mem_of_head?_some
    rw [positions_head, widthSeg_32, heightSeg_32]
  exact ⟨(C3_callsite_clamp.1 128).1, C3_callsite_clamp.2.1,
    C3_callsite_clamp.2.2.2 1 32 0 (by norm_num) _ hmem⟩

/-- **C4.** For every resolution input (including values below the minimum,
negative values included), the generated mesh has at least `33 * 17 = 561`
vertices — the vertex count of a UV sphere with 32 longitude and 16 latitude
divisions — and the tessellation parameters actually used are at least 32
longitude and 16 latitude divisions. -/
theorem C4_min_tessellation (radius intensity : ℝ) (segments : ℤ) (seed : ℕ) :
    561 ≤ (createBumpyGeometry radius segments intensity seed).positions.length ∧
    32 ≤ widthSeg segments ∧ 16 ≤ heightSeg segments := by
  refine ⟨?_, widthSeg_ge segments, heightSeg_ge segments⟩
  rw [positions_length]
  have h1 := widthSeg_ge segments
  have h2 := heightSeg_ge segments
  calc (561 : ℕ) = 17 * 33 := by norm_num
    _ ≤ (heightSeg segments + 1) * (widthSeg segments + 1) :=
      Nat.mul_le_mul (by omega) (by omega)

/-- **C5, counterexample.**  The claim fails at `intensity = 0` (a value the
spec admits): there the displacement factor is identically `1`, so *all*
seeds produce the same output and no two distinct seeds differ in any
vertex position. -/
theorem C5_cex : ∃ (radius intensity : ℝ) (segments : ℤ),
    ∀ s1 s2 : ℕ, createBumpyGeometry radius segments intensity s1 =
      createBumpyGeometry radius segments intensity s2 := by
  refine ⟨1, 0, 128, fun s1 s2 => ?_⟩
  simp only [createBumpyGeometry, displacedPos, mul_zero, zero_mul, add_zero,
    mul_one]

/-- **C5, amended.**  For any fixed `(baseRadius, resolution, intensity)`
with `baseRadius ≠ 0` and `intensity ≠ 0`, there exist two distinct 32-bit
seeds whose outputs differ in at least one vertex position while vertex
count and triangulation topology are identical.  (The two seeds are chosen
so that the north-pole vertex's local RNG seeds become 0 and 1, whose
`mulberry32` draws differ.) -/
theorem C5_seed_sensitivity (radius intensity : ℝ) (segments : ℤ)
    (hr : radius ≠ 0) (hi : intensity ≠ 0) :
    ∃ s1 s2 : ℕ, s1 < 4294967296 ∧ s2 < 4294967296 ∧ s1 ≠ s2 ∧
      createBumpyGeometry radius segments intensity s1 ≠
        createBumpyGeometry radius segments intensity s2 ∧
      (createBumpyGeometry radius segments intensity s1).positions.length =
        (createBumpyGeometry radius segments intensity s2).positions.length ∧
      (createBumpyGeometry radius segments intensity s1).indexList =
        (createBumpyGeometry radius segments intensity s2).indexList := by
  set h0 := jsHash 0 radius 0 with hh0
  set s1 := (4294967296 - h0 % 4294967296) % 4294967296 with hs1
  set s2 := (4294967297 - h0 % 4294967296) % 4294967296 with hs2
  have e1 : (h0 + s1) % 4294967296 = 0 := by omega
  have e2 : (h0 + s2) % 4294967296 = 1 := by omega
  have k1 : mulberry32 (h0 + s1) = 1144304738 := by
    rw [← mulberry32_mod, e1]
    decide
  have k2 : mulberry32 (h0 + s2) = 2693262067 := by
    rw [← mulberry32_mod, e2]
    decide
  refine ⟨s1, s2, by omega, by omega, by omega, ?_, ?_, rfl⟩
  · intro heq
    have hh : (createBumpyGeometry radius segments intensity s1).positions.head? =
        (createBumpyGeometry radius segments intensity s2).positions.head? := by
      rw [heq]
    rw [positions_head, positions_head, displacedPos_pole, displacedPos_pole]
      at hh
    simp only [Option.some.injEq, Prod.mk.injEq] at hh
    obtain ⟨-, hy, -⟩ := hh
    have h3 := mul_left_cancel₀ hr hy
    have h4 : noiseOf (h0 + s1) = noiseOf (h0 + s2) := by
      have h5 : noiseOf (h0 + s1) * intensity = noiseOf (h0 + s2) * intensity := by
        linarith
      exact mul_right_cancel₀ hi h5
    unfold noiseOf at h4
    rw [k1, k2] at h4
    norm_num at h4
  · rw [positions_length, positions_length]

/-! ## The catalog and view model

`CatalogEntry` records as they appear in the source: the embedded
`SAMPLE_ASTEROIDS` dataset (lines 32-175) and the entries built from the
NEO-browse feed (lines 360-379).  JavaScript `null`/absent numeric fields
become `Option ℚ` (JS doubles read as exact rationals), and `notable_events`
entries `{date, event}` become pairs of strings. -/

structure Asteroid where
  id : String
  name : String
  designation : String
  diameter_km : Option ℚ
  absolute_magnitude_h : Option ℚ
  is_potentially_hazardous : Bool
  discovery_date : Option String
  discoverer : Option String
  summary : String
  notable_events : List (String × String)
deriving DecidableEq

/-- The embedded seed catalog (source lines 32-175), transcribed verbatim. -/
def SAMPLE_ASTEROIDS : List Asteroid :=
  [{ id := "99942", name := "99942 Apophis", designation := "99942 Apophis",
     diameter_km := some 0.340, absolute_magnitude_h := some 19.7,
     is_potentially_hazardous := true, discovery_date := some "2004-06-19",
     discoverer := some "K. A. Williams / R. S. McMillan (LINEAR)",
     summary := "Apophis is a near-Earth asteroid known for its close approach in April 2029; modern orbit determinations rule out impacts for the foreseeable future.",
     notable_events := [("2004-06-19", "Discovery (LINEAR)"),
       ("2029-04-13", "Very close Earth approach (inside geostationary orbit distance)")] },
   { id := "152830", name := "152830 Dinkinesh",
     designation := "152830 Dinkinesh & Selam",
     diameter_km := some 0.1, absolute_magnitude_h := some 21.5,
     is_potentially_hazardous := false, discovery_date := some "2006-08-27",
     discoverer := some "Spacewatch",
     summary := "Dinkinesh is a small main-belt asteroid visited by NASA's Lucy mission; it has a small companion named Selam.",
     notable_events := [("2023-10-XX", "Lucy flyby (imaging and characterization)")] },
   { id := "25143", name := "25143 Itokawa", designation := "25143 Itokawa",
     diameter_km := some 0.535, absolute_magnitude_h := some 19.2,
     is_potentially_hazardous := false, discovery_date := some "1998-09-26",
     discoverer := some "H. Abe",
     summary := "Itokawa is a rubble-pile asteroid visited by JAXA's Hayabusa mission; samples returned to Earth in 2010.",
     notable_events := [("1998-09-26", "Discovery (H. Abe)"),
       ("2005-09-12", "Hayabusa arrival"), ("2010-06-13", "Sample return to Earth")] },
   { id := "16", name := "16 Psyche", designation := "16 Psyche",
     diameter_km := some 226, absolute_magnitude_h := some 6.2,
     is_potentially_hazardous := false, discovery_date := some "1852-03-17",
     discoverer := some "Annibale de Gasparis",
     summary := "Psyche is a large, metal-rich asteroid and target of NASA's Psyche mission to study planetary cores and differentiation.",
     notable_events := [("2020-10-13", "Psyche mission launch (target selected earlier)")] },
   { id := "2024YR4", name := "2024 YR4", designation := "2024 YR4",
     diameter_km := none, absolute_magnitude_h := none,
     is_potentially_hazardous := false, discovery_date := some "2024-12-XX",
     discoverer := some "Survey",
     summary := "Recently-designated near-Earth object — check JPL SBDB for latest parameters.",
     notable_events := [("2024-12-01", "Discovery (survey)")] },
   { id := "52246", name := "52246 Donaldjohanson",
     designation := "52246 Donaldjohanson",
     diameter_km := some 0.005, absolute_magnitude_h := some 18.9,
     is_potentially_hazardous := false, discovery_date := some "1987-10-07",
     discoverer := some "Observatory",
     summary := "Main-belt asteroid named after paleoanthropologist Donald Johanson.",
     notable_events := [("1987-10-07", "Discovery")] },
   { id := "Didymos", name := "65803 Didymos & Dimorphos",
     designation := "65803 Didymos",
     diameter_km := some 0.780, absolute_magnitude_h := some 18.3,
     is_potentially_hazardous := false, discovery_date := some "1996-04-11",
     discoverer := some "ROAST survey",
     summary := "Binary near-Earth system; Dimorphos was the target of NASA's DART impact demonstration in 2022.",
     notable_events := [("1996-04-11", "Discovery of Didymos"),
       ("2022-09-26", "DART kinetic impact on Dimorphos")] },
   { id := "243", name := "243 Ida & Dactyl", designation := "243 Ida",
     diameter_km := some 31.8, absolute_magnitude_h := some 10.5,
     is_potentially_hazardous := false, discovery_date := some "1884-09-29",
     discoverer := some "J. Palisa",
     summary := "Ida is a main-belt asteroid and host to Dactyl, the first discovered asteroid moon (discovered in Galileo images).",
     notable_events := [("1993-08-28", "Galileo imaging and discovery of moon Dactyl")] },
   { id := "433", name := "433 Eros", designation := "433 Eros",
     diameter_km := some 16.84, absolute_magnitude_h := some 10.4,
     is_potentially_hazardous := false, discovery_date := some "1898-08-13",
     discoverer := some "G. Witt",
     summary := "Visited by NASA's NEAR Shoemaker mission which mapped Eros and landed in 2001.",
     notable_events := [("1999-02-14", "NEAR Shoemaker arrival & mapping (1999–2001)")] },
   { id := "4", name := "4 Vesta", designation := "4 Vesta",
     diameter_km := some 525.4, absolute_magnitude_h := some 3.2,
     is_potentially_hazardous := false, discovery_date := some "1807-03-29",
     discoverer := some "H. Olbers",
     summary := "One of the largest objects in the asteroid belt; Dawn mission mapped its geology and linked HED meteorites to Vesta.",
     notable_events := [("2011-07-16", "Dawn orbit & mapping (2011–2012)")] }]

/-! ### Search filter (`filtered`, source lines 437-446) -/

/-- Whether `needle` occurs as a contiguous subsequence of `hay`
(JavaScript `String.prototype.includes`). -/
def listContainsSeq (needle : List Char) : List Char → Bool
  | [] => needle.isEmpty
  | c :: t => needle.isPrefixOf (c :: t) || listContainsSeq needle t

/-- JavaScript `hay.includes(needle)`. -/
def strIncludes (hay needle : String) : Bool :=
  listContainsSeq needle.toList hay.toList

/-- JavaScript `toLowerCase()`; the catalog strings are ASCII, where this is
per-character lowering. -/
def jsToLower (s : String) : String := String.mk (s.toList.map Char.toLower)

/-- JavaScript `trim()`: strip whitespace from both ends. -/
def jsTrim (s : String) : String :=
  String.mk (((s.toList.dropWhile Char.isWhitespace).reverse.dropWhile
    Char.isWhitespace).reverse)

/-- The search filter (source lines 437-446): lowercase and trim the query;
an empty (falsy) query returns the whole list, otherwise keep the entries
whose lowercased `name`, `designation` or `id` contains the query. -/
def filtered (asteroids : List Asteroid) (query : String) : List Asteroid :=
  let q := jsToLower (jsTrim query)
  if q.isEmpty then asteroids
  else
    asteroids.filter fun a =>
      strIncludes (jsToLower a.name) q || strIncludes (jsToLower a.designation) q ||
        strIncludes (jsToLower a.id) q

/-! ### Catalog refresh merge (`fetchNeos`, source lines 380-386) -/

/-- The merge of source line 382: the seed catalog, followed by the fetched
items whose `id` does not already occur in the seed catalog
(`!SAMPLE_ASTEROIDS.find(s => s.id === it.id)`; a found entry is an object
and hence truthy). -/
def fetchNeosMerged (items : List Asteroid) : List Asteroid :=
  SAMPLE_ASTEROIDS ++ items.filter fun it =>
    !(SAMPLE_ASTEROIDS.any fun s => s.id == it.id)

/-- The selection update of source line 385:
`merged.find(m => m.id === prev.id) || merged[0]` — keep the entry of the
merged catalog carrying the previous selection's `id` if one exists,
otherwise fall back to the first entry (`none` when the list is empty,
modelling `undefined`). -/
def fetchNeosSelect (merged : List Asteroid) (prev : Asteroid) : Option Asteroid :=
  match merged.find? (fun m => m.id == prev.id) with
  | some m => some m
  | none => merged.head?

/-! ### Detail enrichment (`fetchSBDBDetails`, source lines 399-424) -/

/-- The physical-parameter block `json.phys` of an SBDB response (absent
fields are `none`). -/
structure SbdbPhys where
  diameter : Option ℚ
  H : Option ℚ
  albedo : Option ℚ
deriving DecidableEq

/-- An SBDB response, as far as the enrichment reads it. -/
structure SbdbResp where
  phys : SbdbPhys
deriving DecidableEq

/-- The selected entry: a catalog entry possibly carrying the raw SBDB
response under `sbdb_raw` (the enrichment adds that key). -/
structure SelectedEntry where
  id : String
  name : String
  designation : String
  diameter_km : Option ℚ
  absolute_magnitude_h : Option ℚ
  is_potentially_hazardous : Bool
  discovery_date : Option String
  discoverer : Option String
  summary : String
  notable_events : List (String × String)
  sbdb_raw : Option SbdbResp
deriving DecidableEq

/-- JavaScript truthiness of an optional number: `undefined`/`null` and `0`
are falsy. -/
def jsNumTruthy : Option ℚ → Bool
  | none => false
  | some x => decide (x ≠ 0)

/-- JavaScript `a || b` on optional numbers. -/
def jsOrQ (a b : Option ℚ) : Option ℚ := if jsNumTruthy a then a else b

/-- JavaScript `a || b` on strings (only the empty string is falsy). -/
def jsOrStr (a b : String) : String := if a.isEmpty then b else a

/-- The interpolated summary of source line 413 for a truthy albedo
(Lean's rational rendering stands in for JavaScript number formatting; no
claim evaluates this branch). -/
def albedoSummary (objName : String) (albedo : Option ℚ) : String :=
  objName ++ " — albedo: " ++ toString albedo

/-- The successful-response merge of `fetchSBDBDetails` (source lines
409-416): spread the old entry, overlay `diameter_km`, `absolute_magnitude_h`
and `summary` only when the corresponding response field is truthy, keep
`notable_events` (`obj.notable_events || []` is the identity here, as every
entry carries an events array, and arrays are truthy), and attach the raw
response as `sbdb_raw`. -/
def fetchSBDBMerged (obj : SelectedEntry) (json : SbdbResp) : SelectedEntry :=
  { obj with
    diameter_km := jsOrQ json.phys.diameter obj.diameter_km,
    absolute_magnitude_h := jsOrQ json.phys.H obj.absolute_magnitude_h,
    summary := jsOrStr (if jsNumTruthy json.phys.albedo then
        albedoSummary obj.name json.phys.albedo else obj.summary) obj.summary,
    notable_events := obj.notable_events,
    sbdb_raw := some json }

/-- The Eros seed entry viewed as a (not yet enriched) selection. -/
def selectedEros : SelectedEntry :=
  { id := "433", name := "433 Eros", designation := "433 Eros",
    diameter_km := some 16.84, absolute_magnitude_h := some 10.4,
    is_potentially_hazardous := false, discovery_date := some "1898-08-13",
    discoverer := some "G. Witt",
    summary := "Visited by NASA's NEAR Shoemaker mission which mapped Eros and landed in 2001.",
    notable_events := [("1999-02-14", "NEAR Shoemaker arrival & mapping (1999–2001)")],
    sbdb_raw := none }

/-- A NEO-feed item that duplicates the `id` of the Eros seed entry (the
shape built at source lines 362-379 for a feed row). -/
def nasaFeedEros : Asteroid :=
  { id := "433", name := "433 Eros (433)", designation := "433 Eros (433)",
    diameter_km := none, absolute_magnitude_h := none,
    is_potentially_hazardous := false, discovery_date := none,
    discoverer := none, summary := "Near-Earth object", notable_events := [] }

/-- Witness for the amended C5 at
`(baseRadius, resolution, intensity) = (1, 128, 1/2)`. -/
theorem C5_seed_sensitivity_witness :
    ∃ s1 s2 : ℕ, s1 < 4294967296 ∧ s2 < 4294967296 ∧ s1 ≠ s2 ∧
      createBumpyGeometry 1 128 (1 / 2) s1 ≠ createBumpyGeometry 1 128 (1 / 2) s2 ∧
      (createBumpyGeometry 1 128 (1 / 2) s1).positions.length =
        (createBumpyGeometry 1 128 (1 / 2) s2).positions.length ∧
      (createBumpyGeometry 1 128 (1 / 2) s1).indexList =
        (createBumpyGeometry 1 128 (1 / 2) s2).indexList :=
  C5_seed_sensitivity 1 (1 / 2) 128 (by norm_num) (by norm_num)

/-! ## Claims C6-C10: seed derivation, catalog and view model -/

/-- **C6.** The name-to-seed helper `hashCode` is pure: equal inputs give
equal results on every call, every result is a 32-bit unsigned integer, and
the empty string returns the fixed non-zero initial constant `2166136261`
after zero folding steps. -/
theorem C6_hashCode_stable :
    (∀ u1 u2 : List ℕ, u1 = u2 → hashCode u1 = hashCode u2) ∧
    (∀ u : List ℕ, hashCode u < 4294967296) ∧
    hashCode [] = 2166136261 := by
  refine ⟨fun u1 u2 h => by rw [h], ?_, rfl⟩
  intro u
  have key : ∀ (l : List ℕ) (init : ℕ), init < 4294967296 →
      l.foldl (fun h c => jsImul (h ^^^ c) 16777619) init < 4294967296 := by
    intro l
    induction l with
    | nil =>
      intro init h
      simpa using h
    | cons c t ih =>
      intro init _
      simp only [List.foldl_cons]
      exact ih _ (Nat.mod_lt _ (by norm_num))
  exact key u 2166136261 (by norm_num)

/-- Witness for C6 at the UTF-16 code units of `"433 Eros"`. -/
theorem C6_hashCode_stable_witness :
    hashCode [52, 51, 51, 32, 69, 114, 111, 115] =
      hashCode [52, 51, 51, 32, 69, 114, 111, 115] ∧
    hashCode [] = 2166136261 :=
  ⟨C6_hashCode_stable.1 _ _ rfl, C6_hashCode_stable.2.2⟩

/-- **C7.** Merging an externally fetched list whose entries all duplicate
existing ids into the seed catalog leaves the catalog unchanged: the merged
list is exactly the seed catalog — same entries, same order, nothing
overwritten, no duplicates introduced. -/
theorem C7_merge_idempotent (items : List Asteroid)
    (hdup : ∀ it ∈ items, ∃ s ∈ SAMPLE_ASTEROIDS, s.id = it.id) :
    fetchNeosMerged items = SAMPLE_ASTEROIDS := by
  unfold fetchNeosMerged
  have hfil : (items.filter fun it =>
      !(SAMPLE_ASTEROIDS.any fun s => s.id == it.id)) = [] := by
    rw [List.filter_eq_nil_iff]
    intro it hit
    obtain ⟨s, hs, hid⟩ := hdup it hit
    have hany : (SAMPLE_ASTEROIDS.any fun s => s.id == it.id) = true := by
      rw [List.any_eq_true]
      exact ⟨s, hs, by simp [hid]⟩
    simp [hany]
  rw [hfil, List.append_nil]

/-- Witness for C7: a one-item fetched list duplicating the Eros id. -/
theorem C7_merge_idempotent_witness :
    fetchNeosMerged [nasaFeedEros] = SAMPLE_ASTEROIDS :=
  C7_merge_idempotent [nasaFeedEros] (by decide)

/-- **C8, counterexample.**  A detail payload containing only a diameter
does not change *only* the diameter field of the selection: the merge also
attaches the raw response under a new `sbdb_raw` key (source line 415), so
the enriched entry differs from the base entry updated at `diameter_km`
alone. -/
theorem C8_cex : ¬ (∀ (obj : SelectedEntry) (json : SbdbResp),
    jsNumTruthy json.phys.H = false → jsNumTruthy json.phys.albedo = false →
    fetchSBDBMerged obj json =
      { obj with diameter_km := jsOrQ json.phys.diameter obj.diameter_km }) := by
  intro hcl
  have h := hcl selectedEros ⟨⟨some 17, none, none⟩⟩ rfl rfl
  have hraw := congrArg SelectedEntry.sbdb_raw h
  simp only [fetchSBDBMerged, selectedEros] at hraw
  exact Option.noConfusion hraw

/-- **C8, amended.**  Enriching with a payload whose `H` and `albedo` are
empty changes only the `diameter_km` field (and that one only when the
payload diameter is non-empty, per `jsOrQ`) *and* attaches the raw payload
under `sbdb_raw`; every other field of the selection keeps its
pre-enrichment value. -/
theorem C8_enrichment_overlay (obj : SelectedEntry) (json : SbdbResp)
    (hH : jsNumTruthy json.phys.H = false)
    (halb : jsNumTruthy json.phys.albedo = false) :
    fetchSBDBMerged obj json =
      { obj with
          diameter_km := jsOrQ json.phys.diameter obj.diameter_km,
          sbdb_raw := some json } := by
  simp [fetchSBDBMerged, jsOrQ, jsOrStr, hH, halb, ite_self]

/-- Witness for the amended C8: enriching the Eros selection with a
diameter-only payload. -/
theorem C8_enrichment_overlay_witness :
    fetchSBDBMerged selectedEros ⟨⟨some 17, none, none⟩⟩ =
      { selectedEros with
          diameter_km := jsOrQ (some 17) selectedEros.diameter_km,
          sbdb_raw := some ⟨⟨some 17, none, none⟩⟩ } :=
  C8_enrichment_overlay selectedEros ⟨⟨some 17, none, none⟩⟩ rfl rfl

/-- **C9.** The catalog search is a case-insensitive substring filter over
name, designation and identifier; on the embedded seed catalog the queries
`"eros"` and `"EROS"` each return exactly one match, the entry with
`id = "433"`. -/
theorem C9_search_eros :
    (filtered SAMPLE_ASTEROIDS "eros").map (fun a => a.id) = ["433"] ∧
    (filtered SAMPLE_ASTEROIDS "EROS").map (fun a => a.id) = ["433"] := by
  constructor <;> decide

/-- **C10.** After a successful catalog-refresh merge, the selection is
preserved exactly when an entry with the previous selection's id exists in
the merged catalog (the selection becomes the first such merged entry);
otherwise it is reset to the first entry of the merged catalog. -/
theorem C10_selection_after_merge (merged : List Asteroid) (prev : Asteroid) :
    ((∃ m ∈ merged, m.id = prev.id) →
      ∃ m, fetchNeosSelect merged prev = some m ∧ m ∈ merged ∧
        m.id = prev.id) ∧
    ((∀ m ∈ merged, m.id ≠ prev.id) →
      fetchNeosSelect merged prev = merged.head?) := by
  constructor
  · rintro ⟨m, hm, hid⟩
    have hsome : (merged.find? fun a => a.id == prev.id).isSome = true := by
      rw [List.find?_isSome]
      exact ⟨m, hm, by simp [hid]⟩
    obtain ⟨x, hx⟩ := Option.isSome_iff_exists.1 hsome
    refine ⟨x, ?_, List.mem_of_find?_eq_some hx, ?_⟩
    · unfold fetchNeosSelect
      rw [hx]
    · have hpx := List.find?_some hx
      simpa using hpx
  · intro hnone
    have hfind : (merged.find? fun a => a.id == prev.id) = none := by
      rw [List.find?_eq_none]
      intro x hx
      simp [hnone x hx]
    unfold fetchNeosSelect
    rw [hfind]

/-- Witness for C10: refreshing while Eros is selected (as a feed item with
the same id) keeps an entry with id `"433"` selected. -/
theorem C10_selection_after_merge_witness :
    ∃ m, fetchNeosSelect SAMPLE_ASTEROIDS nasaFeedEros = some m ∧
      m ∈ SAMPLE_ASTEROIDS ∧ m.id = nasaFeedEros.id :=
  (C10_selection_after_merge SAMPLE_ASTEROIDS nasaFeedEros).1 (by decide)
